import Mathlib

/-!
# Verification of the fluent-db conversational query-processing orchestrator

Shallow embedding of `src/pandasai/agent/base.py` (class `Agent`): the
stage-event stream, the generation/execution retry loops, corrective-prompt
selection, the SQL query router `_execute_sql_query`, `train`, and the
conversation-state operations.

External collaborators (the LLM-backed code generator, the code executor /
sandbox, the prompt builders, the response parser, `traceback.format_exc`,
DuckDB and the per-source SQL executors) are modelled as oracles / abstract
parameters; the control flow of `base.py` is translated statement by
statement. Python generators that may raise after yielding some events are
modelled as functions returning the list of yielded events together with an
`Except` outcome.
-/

namespace FluentDb

/-- The `Stage` enum of `base.py` (lines 33-38). -/
inductive Stage where
  | codeGeneration
  | codeExecutionFailure
  | codeRegeneration
  | finalError
  | finalResult
deriving DecidableEq, Repr

/-- Python exceptions that flow through the orchestration loop.
`invalidLLMOutputType` mirrors `pandasai.exceptions.InvalidLLMOutputType`;
`valueError` mirrors `ValueError` (raised e.g. by `_execute_sql_query` for an
empty source collection, and by a backend rejecting a query);
`missingVectorStore` mirrors `MissingVectorStoreError`; `runtimeError` stands
for any other execution-time exception and `llmError` for a failure of the
LLM call itself. -/
inductive PyErr where
  | invalidLLMOutputType (msg : String)
  | valueError (msg : String)
  | missingVectorStore (msg : String)
  | runtimeError (msg : String)
  | llmError (msg : String)
deriving DecidableEq, Repr

/-- `traceback.format_exc()` for the active exception: Python stdlib,
modelled as a formatting function of the exception. -/
def formatExc : PyErr → String
  | .invalidLLMOutputType m => "Traceback: InvalidLLMOutputType: " ++ m
  | .valueError m => "Traceback: ValueError: " ++ m
  | .missingVectorStore m => "Traceback: MissingVectorStoreError: " ++ m
  | .runtimeError m => "Traceback: RuntimeError: " ++ m
  | .llmError m => "Traceback: LLMError: " ++ m

/-- Prompts passed to the code generator: `get_chat_prompt_for_sql`,
`get_correct_error_prompt_for_sql` and `get_correct_output_type_error_prompt`
are external template builders; a prompt is modelled as a tag recording which
builder was used and with which arguments (the failing code and the formatted
trace). -/
inductive Prompt where
  | chatForSql
  | correctErrorSql (code : Option String) (errorTrace : String)
  | correctOutputTypeError (code : Option String) (errorTrace : String)
deriving DecidableEq, Repr

/-- `BaseResponse` / `ErrorResponse` from `pandasai.core.response`:
`parsed` models the output of `ResponseParser.parse(result, code)` and
`errorResponse` models `ErrorResponse(last_code_executed=..., error=...)`
(`base.py` line 231). -/
inductive BaseResponse where
  | parsed (result : String) (lastCodeExecuted : Option String)
  | errorResponse (lastCodeExecuted : Option String) (error : String)
deriving DecidableEq, Repr

/-- Content of a `StreamResponse`: Python type `BaseResponse | str`. -/
inductive Content where
  | str (s : String)
  | resp (r : BaseResponse)
deriving DecidableEq, Repr

/-- The `StreamResponse` dataclass (`base.py` lines 41-45); the `metadata`
dict is always left at its default empty value by `base.py` and is omitted. -/
structure StreamResponse where
  stage : Stage
  content : Content
deriving DecidableEq, Repr

/-- Modelled from the spec: the `AgentState` of `pandasai/agent/state.py` is
not under `src/`; per the spec's data model, `ConversationState` holds the
bounded conversation memory (ordered `(message, is_user)` pairs), the most
recently generated raw code, the most recently cleaned code, the output-type
hint and the last prompt used. `genCount`/`execCount`/`genCalls`/`execCalls`
instrument the state with the number of code-generator and code-executor
invocations and the prompts / codes they were given, so that attempt counts
and prompt selection are observable. -/
structure AgentState where
  memory : List (String × Bool) := []
  lastCodeGenerated : Option String := none
  lastCodeCleaned : Option String := none
  outputType : Option String := none
  lastPromptUsed : Option Prompt := none
  genCount : Nat := 0
  execCount : Nat := 0
  genCalls : List Prompt := []
  execCalls : List (Option String) := []
deriving DecidableEq, Repr

/-- Oracles for the two external effectful collaborators: the `n`-th call to
`CodeGenerator.generate_code` returns `genResult n`, and the `n`-th call to
the code executor on code `c` returns `execResult n c`. -/
structure Oracle where
  genResult : Nat → Except PyErr String
  execResult : Nat → Option String → Except PyErr String

/-- One call to `self._code_generator.generate_code(prompt)`. Modelled from
the spec for the part of `CodeGenerator` not under `src/`: on success it
updates the state's most recently generated and cleaned code. The call is
logged in `genCalls` and counted in `genCount` whether it succeeds or raises. -/
def genCall (o : Oracle) (p : Prompt) (st : AgentState) :
    AgentState × Except PyErr String :=
  let r := o.genResult st.genCount
  let st := { st with genCount := st.genCount + 1, genCalls := st.genCalls ++ [p] }
  match r with
  | .ok c => ({ st with lastCodeGenerated := some c, lastCodeCleaned := some c }, .ok c)
  | .error e => (st, .error e)

/-- `Agent.generate_code` (`base.py` lines 119-127): build the chat prompt,
record it as `last_prompt_used`, then invoke the code generator. -/
def generate_code (o : Oracle) (st : AgentState) :
    AgentState × Except PyErr String :=
  let prompt := Prompt.chatForSql
  let st := { st with lastPromptUsed := some prompt }
  genCall o prompt st

/-- `Agent.execute_code` (`base.py` lines 129-139): run the given code in the
executor (or sandbox). The call is logged and counted whether it succeeds or
raises; the raised exception propagates. -/
def execute_code (o : Oracle) (st : AgentState) (code : Option String) :
    AgentState × Except PyErr String :=
  let r := o.execResult st.execCount code
  let st := { st with execCount := st.execCount + 1, execCalls := st.execCalls ++ [code] }
  (st, r)

/-- `ResponseParser.parse(result, code)`: external collaborator, modelled as
packaging the execution result with the code that produced it. -/
def parse (result : String) (code : Option String) : BaseResponse :=
  .parsed result code

/-- The corrective-prompt selection inside `_regenerate_code_after_error`
(`base.py` lines 216-221): a two-way branch on
`isinstance(error, InvalidLLMOutputType)` choosing between
`get_correct_output_type_error_prompt` and `get_correct_error_prompt_for_sql`. -/
def selectCorrectivePrompt (code : Option String) (error_trace : String)
    (error : PyErr) : Prompt :=
  match error with
  | .invalidLLMOutputType _ => Prompt.correctOutputTypeError code error_trace
  | _ => Prompt.correctErrorSql code error_trace

/-- `Agent._regenerate_code_after_error(code, error)` (`base.py` lines
210-224), continued: yield the failure event, select the corrective prompt,
invoke the generator, and on success yield a `CODE_REGENERATION` event. -/
def regenerate_code_after_error (o : Oracle) (st : AgentState)
    (code : Option String) (error : PyErr) :
    List StreamResponse × AgentState × Except PyErr Unit :=
  let error_trace := formatExc error
  let failEv : StreamResponse := ⟨.codeExecutionFailure, .str error_trace⟩
  let prompt := selectCorrectivePrompt code error_trace error
  match genCall o prompt st with
  | (st, .ok c) => ([failEv, ⟨.codeRegeneration, .str c⟩], st, .ok ())
  | (st, .error e) => ([failEv], st, .error e)

/-- The `while attempts <= max_retries` loop inside the `except` branch of
`Agent.generate_code_with_retries` (`base.py` lines 151-163). `remaining`
counts the loop iterations still allowed, i.e. `max_retries + 1 - attempts`;
each failing iteration increments `attempts`, and when `attempts` exceeds
`max_retries` the last exception is re-raised. `remaining = 0` is the
loop condition being false, ending the generator normally. -/
def genRetryLoop (o : Oracle) (exception : PyErr) (st : AgentState) :
    Nat → List StreamResponse × AgentState × Except PyErr Unit
  | 0 => ([], st, .ok ())
  | n + 1 =>
    match regenerate_code_after_error o st st.lastCodeGenerated exception with
    | (evs, st', .ok ()) => (evs, st', .ok ())
    | (evs, st', .error e) =>
      match n with
      | 0 => (evs, st', .error e)
      | m + 1 =>
        let r := genRetryLoop o e st' (m + 1)
        (evs ++ r.1, r.2)

/-- `Agent.generate_code_with_retries` (`base.py` lines 141-163): try the
initial generation and yield a `CODE_GENERATION` event on success; on failure
enter the bounded regeneration loop. -/
def generate_code_with_retries (maxRetries : Nat) (o : Oracle) (st : AgentState) :
    List StreamResponse × AgentState × Except PyErr Unit :=
  match generate_code o st with
  | (st, .ok code) => ([⟨.codeGeneration, .str code⟩], st, .ok ())
  | (st, .error e) => genRetryLoop o e st (maxRetries + 1)

/-- The `while attempts <= max_retries` loop of `Agent.execute_with_retries`
(`base.py` lines 165-186). `remaining = max_retries + 1 - attempts`. On a
successful execution the parsed result is yielded as a `FINAL_RESULT` event
and the loop breaks; on failure `attempts` is incremented and, if the ceiling
is not exceeded, the recovery generator runs — an exception raised inside it
(inside the `except` handler) propagates out of the loop. -/
def execRetryLoop (o : Oracle) (st : AgentState) :
    Nat → List StreamResponse × AgentState × Except PyErr Unit
  | 0 => ([], st, .ok ())
  | n + 1 =>
    match execute_code o st st.lastCodeCleaned with
    | (st', .ok result) =>
      ([⟨.finalResult, .resp (parse result st'.lastCodeCleaned)⟩], st', .ok ())
    | (st', .error e) =>
      match n with
      | 0 => ([], st', .error e)
      | m + 1 =>
        match regenerate_code_after_error o st' st'.lastCodeCleaned e with
        | (evs, st'', .ok ()) =>
          let r := execRetryLoop o st'' (m + 1)
          (evs ++ r.1, r.2)
        | (evs, st'', .error e2) => (evs, st'', .error e2)

/-- `Agent.execute_with_retries` (`base.py` lines 165-186). -/
def execute_with_retries (maxRetries : Nat) (o : Oracle) (st : AgentState) :
    List StreamResponse × AgentState × Except PyErr Unit :=
  execRetryLoop o st (maxRetries + 1)

/-- `Agent._handle_exception(code)` (`base.py` lines 226-231): wrap the last
attempted code and the formatted trace of the active exception in an
`ErrorResponse`. -/
def handle_exception (code : Option String) (e : PyErr) : BaseResponse :=
  .errorResponse code (formatExc e)

/-- The state mutations at the top of `Agent._process_query` (`base.py`
lines 190-194): record the output type and append the query to memory as a
user message. -/
def recordQuery (st : AgentState) (query : String) (outputType : Option String) :
    AgentState :=
  { st with outputType := outputType, memory := st.memory ++ [(query, true)] }

/-- The `try` body of `Agent._process_query` (`base.py` lines 196-203): the
generation phase followed, on success, by the execution phase. -/
def runPhases (maxRetries : Nat) (o : Oracle) (st : AgentState) :
    List StreamResponse × AgentState × Except PyErr Unit :=
  match generate_code_with_retries maxRetries o st with
  | (evs, st', .error e) => (evs, st', .error e)
  | (evs, st', .ok ()) =>
    let r := execute_with_retries maxRetries o st'
    (evs ++ r.1, r.2)

/-- `Agent._process_query` (`base.py` lines 188-208): record the query, run
both phases, and catch any exception, yielding a terminal `FINAL_ERROR` event
wrapping `ErrorResponse(last_code_cleaned, formatted trace)`. The function is
total: no exception escapes to the consumer of the stream. -/
def process_query (maxRetries : Nat) (o : Oracle) (st : AgentState)
    (query : String) (outputType : Option String) :
    List StreamResponse × AgentState :=
  let st := recordQuery st query outputType
  match runPhases maxRetries o st with
  | (evs, st', .ok ()) => (evs, st')
  | (evs, st', .error e) =>
    (evs ++ [⟨.finalError, .resp (handle_exception st'.lastCodeCleaned e)⟩], st')

/-- The stage tags of an event stream. -/
def stages (evs : List StreamResponse) : List Stage :=
  evs.map (·.stage)

/-! ## Conversation-state operations (`base.py` lines 266-284) -/

/-- `Agent.clear_memory` (`base.py` lines 266-270): `self._state.memory.clear()`.
Modelled from the spec for `Memory` (not under `src/`): the conversation
memory is an ordered sequence of messages and `clear` empties it. No other
field of the state is touched. -/
def clear_memory (st : AgentState) : AgentState :=
  { st with memory := [] }

/-- `Agent.add_message(message, is_user)` (`base.py` lines 272-278). -/
def add_message (st : AgentState) (message : String) (isUser : Bool) : AgentState :=
  { st with memory := st.memory ++ [(message, isUser)] }

/-- `Agent.start_new_conversation` (`base.py` lines 280-284): its body is
exactly `self.clear_memory()`. -/
def start_new_conversation (st : AgentState) : AgentState :=
  clear_memory st

/-! ## `Agent.train` (`base.py` lines 233-264) -/

/-- A write issued to the vector store. -/
inductive VSWrite where
  | addDocs (docs : List String)
  | addQuestionAnswer (queries codes : List String)
deriving DecidableEq, Repr

/-- Python truthiness of an `Optional[List[str]]` argument: `None` and the
empty list are falsy. -/
def truthy : Option (List String) → Bool
  | none => false
  | some [] => false
  | some (_ :: _) => true

/-- `Agent.train(queries, codes, docs)` (`base.py` lines 233-264), returning
the ordered list of vector-store writes performed together with the outcome.
The missing-vector-store check and the queries/codes presence check both
precede every write, so the error branches perform no write; `docs` is
written whenever it `is not None`, and the question/answer pairs whenever
both `queries` and `codes` are truthy. -/
def train (hasVectorstore : Bool)
    (queries codes docs : Option (List String)) :
    List VSWrite × Except PyErr Unit :=
  if !hasVectorstore then
    ([], .error (.missingVectorStore
      "No vector store provided. Please provide a vector store to train the agent."))
  else if (truthy queries && !truthy codes) || (!truthy queries && truthy codes) then
    ([], .error (.valueError
      "If either queries or codes are provided, both must be provided."))
  else
    let w1 : List VSWrite :=
      match docs with
      | none => []
      | some d => [.addDocs d]
    let w2 : List VSWrite :=
      match queries, codes with
      | some qs, some cs => if truthy queries && truthy codes then [.addQuestionAnswer qs cs] else []
      | _, _ => []
    (w1 ++ w2, .ok ())

/-! ## The SQL query router: `Agent._execute_sql_query` (`base.py` lines 287-319) -/

/-- A registered data source, as the router inspects it: either it has a
`query_builder` (a dataset with a declared name, a table expression and its
own `execute_sql_query` method, identified here by `execId`), or it is a
plain dataframe (e.g. loaded from a csv) that only carries a name and gets
registered with the embedded DuckDB engine. -/
inductive DFSource where
  | withQueryBuilder (name tableExpr : String) (execId : Nat)
  | plain (name : String)
deriving DecidableEq, Repr

/-- Python `dict` assignment `m[k] = v`: replace the value of an existing
key in place, otherwise append the new pair. -/
def dictInsert (m : List (String × String)) (k v : String) : List (String × String) :=
  match m with
  | [] => [(k, v)]
  | (k', v') :: rest =>
    if k' = k then (k', v) :: rest else (k', v') :: dictInsert rest k v

/-- What the router did with the query: either the rewritten query ran on the
embedded DuckDB engine over the registered in-memory tables, or the full
rewritten query was forwarded to the designated executor source. -/
inductive SQLDispatch where
  | embedded (finalQuery : String) (registeredTables : List String)
  | forwarded (execId : Nat) (finalQuery : String)
deriving DecidableEq, Repr

/-- The `for df in self._state.dfs` loop of `_execute_sql_query` (`base.py`
lines 305-312): accumulate the table mapping, the DuckDB-registered table
names and the (overwritten) designated executor. -/
def routeLoop : List DFSource → List (String × String) → List String → Option Nat →
    List (String × String) × List String × Option Nat
  | [], mapping, regs, ex => (mapping, regs, ex)
  | .withQueryBuilder n te eid :: rest, mapping, regs, _ =>
    routeLoop rest (dictInsert mapping n te) regs (some eid)
  | .plain n :: rest, mapping, regs, ex =>
    routeLoop rest mapping (regs ++ [n]) ex

/-- `Agent._execute_sql_query(query)` (`base.py` lines 287-319).
`rewrite` stands for `SQLParser.replace_table_and_column_names(query,
table_mapping)` (an external module), applied to the query and the built
table mapping. An empty source collection raises `ValueError`; otherwise the
rewritten query runs on the embedded engine when no source has a query
builder, and is forwarded to the last such source's executor when one
exists. -/
def execute_sql_query (rewrite : String → List (String × String) → String)
    (dfs : List DFSource) (query : String) : Except PyErr SQLDispatch :=
  match dfs with
  | [] => .error (.valueError "No DataFrames available to register for query execution.")
  | _ :: _ =>
    let acc := routeLoop dfs [] [] none
    let finalQuery := rewrite query acc.1
    match acc.2.2 with
    | none => .ok (.embedded finalQuery acc.2.1)
    | some eid => .ok (.forwarded eid finalQuery)

/-- Whether a source has a `query_builder` (is query-capable). -/
def isCapable : DFSource → Bool
  | .withQueryBuilder _ _ _ => true
  | .plain _ => false

/-- The name of a source. -/
def sourceName : DFSource → String
  | .withQueryBuilder n _ _ => n
  | .plain n => n

/-- The table mapping built by the router for a given source list. -/
def buildMapping (dfs : List DFSource) : List (String × String) :=
  (routeLoop dfs [] [] none).1

/-- The `(name, table expression)` entries contributed to the table mapping
by the query-capable sources, in registration order. -/
def capableEntries : List DFSource → List (String × String)
  | [] => []
  | .withQueryBuilder n te _ :: rest => (n, te) :: capableEntries rest
  | .plain _ :: rest => capableEntries rest

/-! ## Adjacency predicate for stage streams (claim C9) -/

/-- `regenAdj prev ss` holds when, scanning `ss` with `prev` as the stage
just before it, every `codeRegeneration` stage is immediately preceded by a
`codeExecutionFailure` stage. -/
def regenAdj : Option Stage → List Stage → Bool
  | _, [] => true
  | prev, s :: rest =>
    decide (s = Stage.codeRegeneration → prev = some Stage.codeExecutionFailure)
      && regenAdj (some s) rest

/-- The last element of `xs`, or `p` when `xs` is empty. -/
def lastD : Option Stage → List Stage → Option Stage
  | p, [] => p
  | _, s :: rest => lastD (some s) rest

/-- Python `dict` key lookup `m[k]` on the table-mapping model. -/
def dictGet (m : List (String × String)) (k : String) : Option String :=
  match m with
  | [] => none
  | (k', v) :: rest => if k' = k then some v else dictGet rest k

/-! ## Concrete oracles and inputs used in closed theorems -/

/-- Every call to the code generator fails. -/
def oracleAllGenFail : Oracle :=
  { genResult := fun n => .error (.llmError ("g" ++ toString n))
    execResult := fun _ _ => .ok "val" }

/-- Generation always succeeds (returning `c0`, `c1`, ...); the first two
execution attempts fail and the third succeeds. -/
def oracleExecFailsTwice : Oracle :=
  { genResult := fun n => .ok ("c" ++ toString n)
    execResult := fun n _ =>
      if n < 2 then .error (.runtimeError ("boom" ++ toString n)) else .ok "val" }

/-- The first execution attempt fails with the router's dispatch
`ValueError`, the second succeeds; generation always succeeds. -/
def oracleDispatchFail : Oracle :=
  { genResult := fun n => .ok ("c" ++ toString n)
    execResult := fun n _ =>
      if n = 0 then
        .error (.valueError "No DataFrames available to register for query execution.")
      else .ok "val" }

/-- The initial generation fails, every later generator call succeeds, and
execution always succeeds. -/
def oracleInitialGenFails : Oracle :=
  { genResult := fun n =>
      if n = 0 then .error (.llmError "g0") else .ok ("c" ++ toString n)
    execResult := fun _ _ => .ok "val" }

/-- A state in which cleaned code is already available for execution. -/
def stC4 : AgentState := { lastCodeCleaned := some "c0" }

/-- A conversation state with a prior message and left-over code fields. -/
def stC7 : AgentState :=
  { memory := [("earlier message", true)], lastCodeGenerated := some "gen",
    lastCodeCleaned := some "clean" }

/-- A trivial concrete rewriter standing in for
`SQLParser.replace_table_and_column_names` in closed witness statements. -/
def rwId (q : String) (_ : List (String × String)) : String := q

/-- A concrete source list with one plain and two query-capable sources. -/
def dfsC10 : List DFSource :=
  [DFSource.plain "a", DFSource.withQueryBuilder "b" "eb" 7,
   DFSource.withQueryBuilder "c" "ec" 9]

/-! ## Basic lemmas about the state instrumentation -/

theorem genCall_genCount (o : Oracle) (p : Prompt) (st : AgentState) :
    (genCall o p st).1.genCount = st.genCount + 1 := by
  unfold genCall
  cases o.genResult st.genCount <;> rfl

theorem genCall_execCount (o : Oracle) (p : Prompt) (st : AgentState) :
    (genCall o p st).1.execCount = st.execCount := by
  unfold genCall
  cases o.genResult st.genCount <;> rfl

theorem genCall_genCalls (o : Oracle) (p : Prompt) (st : AgentState) :
    (genCall o p st).1.genCalls = st.genCalls ++ [p] := by
  unfold genCall
  cases o.genResult st.genCount <;> rfl

theorem regenerate_genCount (o : Oracle) (st : AgentState)
    (code : Option String) (error : PyErr) :
    (regenerate_code_after_error o st code error).2.1.genCount = st.genCount + 1 := by
  have hc := genCall_genCount o (selectCorrectivePrompt code (formatExc error) error) st
  unfold regenerate_code_after_error
  rcases h : genCall o (selectCorrectivePrompt code (formatExc error) error) st with ⟨st', r⟩
  rw [h] at hc
  cases r <;> simpa [h] using hc

theorem regenerate_execCount (o : Oracle) (st : AgentState)
    (code : Option String) (error : PyErr) :
    (regenerate_code_after_error o st code error).2.1.execCount = st.execCount := by
  have hc := genCall_execCount o (selectCorrectivePrompt code (formatExc error) error) st
  unfold regenerate_code_after_error
  rcases h : genCall o (selectCorrectivePrompt code (formatExc error) error) st with ⟨st', r⟩
  rw [h] at hc
  cases r <;> simpa [h] using hc

theorem execute_code_execCount (o : Oracle) (st : AgentState) (code : Option String) :
    (execute_code o st code).1.execCount = st.execCount + 1 := by
  rfl

theorem execute_code_genCount (o : Oracle) (st : AgentState) (code : Option String) :
    (execute_code o st code).1.genCount = st.genCount := by
  rfl

theorem regenerate_genCalls (o : Oracle) (st : AgentState)
    (code : Option String) (error : PyErr) :
    (regenerate_code_after_error o st code error).2.1.genCalls =
      st.genCalls ++ [selectCorrectivePrompt code (formatExc error) error] := by
  have hc := genCall_genCalls o (selectCorrectivePrompt code (formatExc error) error) st
  unfold regenerate_code_after_error
  rcases h : genCall o (selectCorrectivePrompt code (formatExc error) error) st with ⟨st', r⟩
  rw [h] at hc
  cases r <;> simpa [h] using hc

/-! ## Attempt-count bounds for the retry loops -/

theorem genRetryLoop_genCount_le (o : Oracle) :
    ∀ (r : Nat) (e : PyErr) (st : AgentState),
      (genRetryLoop o e st r).2.1.genCount ≤ st.genCount + r := by
  intro r
  induction r with
  | zero => intro e st; simp [genRetryLoop]
  | succ n ih =>
    intro e st
    have hre := regenerate_genCount o st st.lastCodeGenerated e
    unfold genRetryLoop
    rcases h : regenerate_code_after_error o st st.lastCodeGenerated e with ⟨evs, st', r'⟩
    rw [h] at hre
    simp only at hre
    cases r' with
    | ok u =>
      cases u
      simp only
      omega
    | error e2 =>
      cases n with
      | zero => simp only; omega
      | succ m =>
        simp only
        have := ih e2 st'
        omega

theorem generate_code_genCount (o : Oracle) (st : AgentState) :
    (generate_code o st).1.genCount = st.genCount + 1 := by
  unfold generate_code
  exact genCall_genCount o Prompt.chatForSql _

theorem generate_code_with_retries_genCount_le
    (maxRetries : Nat) (o : Oracle) (st : AgentState) :
    (generate_code_with_retries maxRetries o st).2.1.genCount ≤
      st.genCount + (maxRetries + 2) := by
  have hg := generate_code_genCount o st
  unfold generate_code_with_retries
  rcases h : generate_code o st with ⟨st', r⟩
  rw [h] at hg
  simp only at hg
  cases r with
  | ok c => simp only; omega
  | error e =>
    simp only
    have := genRetryLoop_genCount_le o (maxRetries + 1) e st'
    omega

theorem execRetryLoop_execCount_le (o : Oracle) :
    ∀ (r : Nat) (st : AgentState),
      (execRetryLoop o st r).2.1.execCount ≤ st.execCount + r := by
  intro r
  induction r with
  | zero => intro st; simp [execRetryLoop]
  | succ n ih =>
    intro st
    have hx := execute_code_execCount o st st.lastCodeCleaned
    unfold execRetryLoop
    rcases h : execute_code o st st.lastCodeCleaned with ⟨st', r'⟩
    rw [h] at hx
    simp only at hx
    cases r' with
    | ok result => simp only; omega
    | error e =>
      cases n with
      | zero => simp only; omega
      | succ m =>
        have hre := regenerate_execCount o st' st'.lastCodeCleaned e
        simp only
        rcases h2 : regenerate_code_after_error o st' st'.lastCodeCleaned e with ⟨evs, st'', r''⟩
        rw [h2] at hre
        simp only at hre
        cases r'' with
        | ok u =>
          cases u
          simp only
          have := ih st''
          omega
        | error e2 => simp only; omega

theorem execute_with_retries_execCount_le
    (maxRetries : Nat) (o : Oracle) (st : AgentState) :
    (execute_with_retries maxRetries o st).2.1.execCount ≤
      st.execCount + (maxRetries + 1) := by
  exact execRetryLoop_execCount_le o (maxRetries + 1) st

/-! ## Claim C1 -/

/-- C1 (amended): with a non-negative retry ceiling the execution loop makes
at most `maxRetries + 1` code-execution attempts, while the generation phase
makes at most `maxRetries + 2` code-generation attempts (the failed initial
generation plus up to `maxRetries + 1` corrective regenerations inside the
generation-phase loop); the two attempt counters are tracked independently.
Counts are measured by the `execCount` / `genCount` instrumentation of the
state. -/
theorem c1_attempt_bounds (maxRetries : Nat) (o : Oracle) (st : AgentState) :
    (execute_with_retries maxRetries o st).2.1.execCount ≤
      st.execCount + (maxRetries + 1) ∧
    (generate_code_with_retries maxRetries o st).2.1.genCount ≤
      st.genCount + (maxRetries + 2) := by
  exact ⟨execute_with_retries_execCount_le maxRetries o st,
    generate_code_with_retries_genCount_le maxRetries o st⟩

/-- C1 is false as stated: with `maxRetries = 0` and a generator that always
fails, the generation phase invokes the code generator twice (the initial
attempt plus one corrective regeneration), exceeding the claimed ceiling of
`maxRetries + 1 = 1` generation attempts. -/
theorem c1_counterexample :
    (generate_code_with_retries 0 oracleAllGenFail {}).2.1.genCount = 2 ∧
    ¬ ((generate_code_with_retries 0 oracleAllGenFail {}).2.1.genCount ≤ 0 + 1) := by
  constructor
  · rfl
  · intro h
    have : (2 : Nat) ≤ 1 := by
      calc (2 : Nat) = (generate_code_with_retries 0 oracleAllGenFail {}).2.1.genCount := by rfl
        _ ≤ 0 + 1 := h
    omega

/-! ## Claim C3 -/

/-- C3: with retry ceiling 2, generation succeeding immediately and execution
failing exactly twice before succeeding on the third code version, the event
stream of the query processor is exactly
`[code-generated, execution-failed, code-regenerated, execution-failed,
code-regenerated, final-result]`, with no other events. -/
theorem c3_event_sequence :
    stages (process_query 2 oracleExecFailsTwice {} "q" none).1 =
      [Stage.codeGeneration, Stage.codeExecutionFailure, Stage.codeRegeneration,
       Stage.codeExecutionFailure, Stage.codeRegeneration, Stage.finalResult] := by
  rfl

/-! ## Claim C2 -/

/-- C2: whenever the two processing phases end in an unrecovered exception
(generation or execution retries exhausted), the stream produced by
`_process_query` is non-empty and its last element is a `FINAL_ERROR` event
wrapping `ErrorResponse(last_code_executed = last cleaned code, error =
formatted trace of the terminal exception)`. No exception escapes to the
consumer: `process_query` is a total function into an event list. -/
theorem c2_terminal_failure_yields_final_error
    (maxRetries : Nat) (o : Oracle) (st : AgentState)
    (query : String) (outputType : Option String) (e : PyErr)
    (h : (runPhases maxRetries o (recordQuery st query outputType)).2.2 =
      Except.error e) :
    (process_query maxRetries o st query outputType).1 ≠ [] ∧
    (process_query maxRetries o st query outputType).1.getLast? =
      some ⟨Stage.finalError, Content.resp (BaseResponse.errorResponse
        (runPhases maxRetries o (recordQuery st query outputType)).2.1.lastCodeCleaned
        (formatExc e))⟩ := by
  unfold process_query
  rcases hr : runPhases maxRetries o (recordQuery st query outputType) with ⟨evs, st', r⟩
  rw [hr] at h
  simp only at h
  subst h
  simp only [hr]
  refine ⟨by simp, ?_⟩
  rw [List.getLast?_append_cons]
  rfl

/-- Witness for C2: with ceiling 0 and a generator that always fails, the
phases end in the exception of the second generator call and the stream ends
in the corresponding `FINAL_ERROR` event. -/
theorem c2_witness :
    (runPhases 0 oracleAllGenFail (recordQuery {} "q" none)).2.2 =
      Except.error (PyErr.llmError "g1") ∧
    (process_query 0 oracleAllGenFail {} "q" none).1 ≠ [] ∧
    (process_query 0 oracleAllGenFail {} "q" none).1.getLast? =
      some ⟨Stage.finalError, Content.resp (BaseResponse.errorResponse
        (runPhases 0 oracleAllGenFail (recordQuery {} "q" none)).2.1.lastCodeCleaned
        (formatExc (PyErr.llmError "g1")))⟩ := by
  refine ⟨by rfl, ?_⟩
  exact c2_terminal_failure_yields_final_error 0 oracleAllGenFail {} "q" none
    (PyErr.llmError "g1") (by rfl)

/-! ## Claim C4 -/

/-- The events yielded by the recovery generator: always the execution-failed
event first, followed by a regeneration event exactly when the corrective
generation succeeded. -/
theorem regenerate_events_shape (o : Oracle) (st : AgentState)
    (code : Option String) (error : PyErr) :
    (regenerate_code_after_error o st code error).1 =
      [⟨Stage.codeExecutionFailure, Content.str (formatExc error)⟩] ∨
    ∃ c, (regenerate_code_after_error o st code error).1 =
      [⟨Stage.codeExecutionFailure, Content.str (formatExc error)⟩,
       ⟨Stage.codeRegeneration, Content.str c⟩] := by
  unfold regenerate_code_after_error
  rcases h : genCall o (selectCorrectivePrompt code (formatExc error) error) st with ⟨st', r⟩
  cases r with
  | ok c => right; exact ⟨c, by simp [h]⟩
  | error e => left; simp [h]

theorem execRetryLoop_genCount_mono (o : Oracle) :
    ∀ (r : Nat) (st : AgentState),
      st.genCount ≤ (execRetryLoop o st r).2.1.genCount := by
  intro r
  induction r with
  | zero => intro st; simp [execRetryLoop]
  | succ n ih =>
    intro st
    have hx := execute_code_genCount o st st.lastCodeCleaned
    unfold execRetryLoop
    rcases h : execute_code o st st.lastCodeCleaned with ⟨st', r'⟩
    rw [h] at hx
    simp only at hx
    cases r' with
    | ok result => simp only; omega
    | error e =>
      cases n with
      | zero => simp only; omega
      | succ m =>
        have hre := regenerate_genCount o st' st'.lastCodeCleaned e
        simp only
        rcases h2 : regenerate_code_after_error o st' st'.lastCodeCleaned e with ⟨evs, st'', r''⟩
        rw [h2] at hre
        simp only at hre
        cases r'' with
        | ok u =>
          cases u
          simp only
          have := ih st''
          omega
        | error e2 => simp only; omega

/-- C4 (amended): a dispatch failure (e.g. the `ValueError` the router raises
for an empty source collection, or a backend rejecting the rewritten query)
is not retried inside the router itself, but the orchestration loop's
execution-retry handler catches it like any other exception: when at least
one retry remains, the loop emits an execution-failed event carrying the
dispatch failure's trace and invokes the code generator for a corrective
regeneration instead of failing immediately. -/
theorem c4_dispatch_failure_is_retried (o : Oracle) (st : AgentState)
    (n : Nat) (m : String)
    (h : o.execResult st.execCount st.lastCodeCleaned =
      Except.error (PyErr.valueError m)) :
    (execRetryLoop o st (n + 2)).1.head? =
      some ⟨Stage.codeExecutionFailure, Content.str (formatExc (PyErr.valueError m))⟩ ∧
    st.genCount < (execRetryLoop o st (n + 2)).2.1.genCount := by
  unfold execRetryLoop
  rcases hx : execute_code o st st.lastCodeCleaned with ⟨st', r'⟩
  have hr' : r' = Except.error (PyErr.valueError m) := by
    have h2 : (execute_code o st st.lastCodeCleaned).2 =
        Except.error (PyErr.valueError m) := by
      unfold execute_code
      rw [h]
    rw [hx] at h2
    exact h2
  subst hr'
  have hgc0 := execute_code_genCount o st st.lastCodeCleaned
  rw [hx] at hgc0
  simp only at hgc0
  simp only
  have hshape := regenerate_events_shape o st' st'.lastCodeCleaned (PyErr.valueError m)
  have hgc := regenerate_genCount o st' st'.lastCodeCleaned (PyErr.valueError m)
  rcases h2 : regenerate_code_after_error o st' st'.lastCodeCleaned (PyErr.valueError m)
    with ⟨evs, st'', r''⟩
  rw [h2] at hshape hgc
  simp only at hshape hgc
  cases r'' with
  | ok u =>
    cases u
    simp only
    constructor
    · rcases hshape with hs | ⟨c, hs⟩ <;> subst hs <;> rfl
    · have := execRetryLoop_genCount_mono o (n + 1) st''
      omega
  | error e2 =>
    simp only
    constructor
    · rcases hshape with hs | ⟨c, hs⟩ <;> subst hs <;> rfl
    · omega

/-- C4 is false as stated: after a dispatch failure on the first execution
attempt (ceiling 1), the loop does not fail immediately — it emits an
execution-failed event, performs a corrective regeneration and a second
execution attempt, and finishes with a final result. -/
theorem c4_counterexample :
    stages (execute_with_retries 1 oracleDispatchFail stC4).1 =
      [Stage.codeExecutionFailure, Stage.codeRegeneration, Stage.finalResult] ∧
    (execute_with_retries 1 oracleDispatchFail stC4).2.1.execCount = 2 ∧
    (execute_with_retries 1 oracleDispatchFail stC4).2.1.genCount = 1 := by
  exact ⟨rfl, rfl, rfl⟩

/-- Witness for C4's amended theorem at a concrete input. -/
theorem c4_witness :
    (execRetryLoop oracleDispatchFail stC4 (0 + 2)).1.head? =
      some ⟨Stage.codeExecutionFailure, Content.str (formatExc (PyErr.valueError
        "No DataFrames available to register for query execution."))⟩ ∧
    stC4.genCount < (execRetryLoop oracleDispatchFail stC4 (0 + 2)).2.1.genCount :=
  c4_dispatch_failure_is_retried oracleDispatchFail stC4 0
    "No DataFrames available to register for query execution." (by rfl)

/-! ## Claim C6 -/

/-- C6: the corrective prompt passed to the code generator by the recovery
path is selected by a two-way branch on the exception: the generator call
logged by a recovery step uses the output-type-correction template exactly
when the exception is an invalid-output-type failure, uses the generic SQL
error-correction template exactly when it is any other exception, and is
always one of these two templates — no third branch exists. -/
theorem c6_corrective_prompt_two_way_branch (o : Oracle) (st : AgentState)
    (code : Option String) (error : PyErr) :
    ((regenerate_code_after_error o st code error).2.1.genCalls =
        st.genCalls ++ [Prompt.correctOutputTypeError code (formatExc error)]
      ↔ ∃ m, error = PyErr.invalidLLMOutputType m) ∧
    ((regenerate_code_after_error o st code error).2.1.genCalls =
        st.genCalls ++ [Prompt.correctErrorSql code (formatExc error)]
      ↔ ∀ m, error ≠ PyErr.invalidLLMOutputType m) ∧
    ((regenerate_code_after_error o st code error).2.1.genCalls =
        st.genCalls ++ [Prompt.correctOutputTypeError code (formatExc error)] ∨
     (regenerate_code_after_error o st code error).2.1.genCalls =
        st.genCalls ++ [Prompt.correctErrorSql code (formatExc error)]) := by
  cases error <;> simp [regenerate_genCalls, selectCorrectivePrompt]

/-! ## Claim C7 -/

/-- C7 is false as stated: `start_new_conversation` empties the memory but
does NOT unset the left-over last-generated and last-cleaned code fields —
they keep their previous values. -/
theorem c7_counterexample :
    (start_new_conversation stC7).memory = [] ∧
    (start_new_conversation stC7).lastCodeGenerated = some "gen" ∧
    (start_new_conversation stC7).lastCodeCleaned = some "clean" :=
  ⟨rfl, rfl, rfl⟩

/-- C7 (amended): after `start_new_conversation` the conversation memory is
empty — so the context recorded for the next query contains only that query —
but the last-generated and last-cleaned code fields are not cleared: they
retain their previous values (`start_new_conversation` only calls
`clear_memory`). -/
theorem c7_start_new_conversation_clears_memory_only (st : AgentState)
    (q : String) (ot : Option String) :
    (start_new_conversation st).memory = [] ∧
    (recordQuery (start_new_conversation st) q ot).memory = [(q, true)] ∧
    (start_new_conversation st).lastCodeGenerated = st.lastCodeGenerated ∧
    (start_new_conversation st).lastCodeCleaned = st.lastCodeCleaned :=
  ⟨rfl, rfl, rfl, rfl⟩

/-! ## Claim C8 -/

/-- C8: calling `train` with `queries` truthy but `codes` not (or vice
versa) performs no vector-store write at all — neither `add_docs` nor
`add_question_answer` — and raises an error; when a vector store is
configured that error is precisely the mismatched-arguments `ValueError`
(and when none is configured the earlier missing-vector-store check fails
first, still with no write). -/
theorem c8_train_mismatch_no_write (hasVS : Bool)
    (queries codes docs : Option (List String))
    (h : truthy queries ≠ truthy codes) :
    (train hasVS queries codes docs).1 = [] ∧
    (∃ e, (train hasVS queries codes docs).2 = Except.error e) ∧
    (hasVS = true → (train hasVS queries codes docs).2 =
      Except.error (PyErr.valueError
        "If either queries or codes are provided, both must be provided.")) := by
  have hcond : ((truthy queries && !truthy codes)
      || (!truthy queries && truthy codes)) = true := by
    cases hq : truthy queries <;> cases hc : truthy codes <;> simp_all
  cases hasVS with
  | false => exact ⟨rfl, ⟨_, rfl⟩, by intro hh; cases hh⟩
  | true =>
    have ht : train true queries codes docs =
        ([], Except.error (PyErr.valueError
          "If either queries or codes are provided, both must be provided.")) := by
      simp [train, hcond]
    rw [ht]
    exact ⟨rfl, ⟨_, rfl⟩, fun _ => rfl⟩

theorem dictGet_dictInsert_self (m : List (String × String)) (k v : String) :
    dictGet (dictInsert m k v) k = some v := by
  induction m with
  | nil => simp [dictInsert, dictGet]
  | cons p rest ih =>
    rcases p with ⟨k', v'⟩
    by_cases hk : k' = k
    · subst hk
      simp [dictInsert, dictGet]
    · simp [dictInsert, dictGet, hk, ih]

theorem dictGet_dictInsert_ne (m : List (String × String)) (k v k' : String)
    (h : k ≠ k') :
    dictGet (dictInsert m k v) k' = dictGet m k' := by
  induction m with
  | nil => simp [dictInsert, dictGet, h]
  | cons p rest ih =>
    rcases p with ⟨k2, v2⟩
    by_cases hk : k2 = k
    · subst hk
      simp [dictInsert, dictGet, h]
    · simp only [dictInsert, hk, if_false, dictGet]
      by_cases hk2 : k2 = k'
      · simp [hk2]
      · simp [hk2, ih]

/-- Unfolding `routeLoop` over a concatenation: the accumulators after the
first segment feed the second. -/
theorem routeLoop_append (xs ys : List DFSource) :
    ∀ (m : List (String × String)) (regs : List String) (ex : Option Nat),
      routeLoop (xs ++ ys) m regs ex =
        routeLoop ys (routeLoop xs m regs ex).1
          (routeLoop xs m regs ex).2.1 (routeLoop xs m regs ex).2.2 := by
  induction xs with
  | nil => intro m regs ex; rfl
  | cons d rest ih =>
    intro m regs ex
    cases d with
    | withQueryBuilder n te eid => simpa [routeLoop] using ih _ _ _
    | plain n => simpa [routeLoop] using ih _ _ _

/-- A segment with no query-capable source only registers its tables with
the embedded engine: the mapping and the designated executor are unchanged. -/
theorem routeLoop_no_capable (dfs : List DFSource)
    (h : ∀ df ∈ dfs, isCapable df = false) :
    ∀ (m : List (String × String)) (regs : List String) (ex : Option Nat),
      routeLoop dfs m regs ex = (m, regs ++ dfs.map sourceName, ex) := by
  induction dfs with
  | nil => intro m regs ex; simp [routeLoop]
  | cons d rest ih =>
    intro m regs ex
    cases d with
    | withQueryBuilder n te eid =>
      exact absurd (h _ (List.mem_cons_self _ _)) (by simp [isCapable])
    | plain n =>
      have hrest : ∀ df ∈ rest, isCapable df = false :=
        fun df hdf => h df (List.mem_cons_of_mem _ hdf)
      simp [routeLoop, ih hrest, sourceName]

/-- When some source is query-capable, the designated executor after the
loop is the executor of one of the capable sources. -/
theorem routeLoop_exec_some (dfs : List DFSource)
    (h : ∃ df ∈ dfs, isCapable df = true) :
    ∀ (m : List (String × String)) (regs : List String) (ex : Option Nat),
      ∃ n te eid, DFSource.withQueryBuilder n te eid ∈ dfs ∧
        (routeLoop dfs m regs ex).2.2 = some eid := by
  induction dfs with
  | nil => rcases h with ⟨df, hdf, _⟩; cases hdf
  | cons d rest ih =>
    intro m regs ex
    cases d with
    | plain nm =>
      have hrest : ∃ df ∈ rest, isCapable df = true := by
        rcases h with ⟨df, hdf, hcap⟩
        rcases List.mem_cons.mp hdf with hh | hh
        · subst hh; cases hcap
        · exact ⟨df, hh, hcap⟩
      rcases ih hrest m (regs ++ [nm]) ex with ⟨n, te, eid, hmem, hex⟩
      exact ⟨n, te, eid, List.mem_cons_of_mem _ hmem, by simpa [routeLoop] using hex⟩
    | withQueryBuilder nm te0 eid0 =>
      by_cases hrest : ∃ df ∈ rest, isCapable df = true
      · rcases ih hrest (dictInsert m nm te0) regs (some eid0) with ⟨n, te, eid, hmem, hex⟩
        exact ⟨n, te, eid, List.mem_cons_of_mem _ hmem, by simpa [routeLoop] using hex⟩
      · push_neg at hrest
        have hnone : ∀ df ∈ rest, isCapable df = false := by
          intro df hdf
          have := hrest df hdf
          cases hcap : isCapable df
          · rfl
          · exact absurd hcap this
        refine ⟨nm, te0, eid0, List.mem_cons_self _ _, ?_⟩
        simp [routeLoop, routeLoop_no_capable rest hnone]

/-- The entries of query-capable sources later in the list do not involve
key `k`: the final mapping agrees with the accumulator at `k`. -/
theorem routeLoop_dictGet_of_notin (dfs : List DFSource) (k : String) :
    ∀ (m : List (String × String)) (regs : List String) (ex : Option Nat),
      k ∉ (capableEntries dfs).map Prod.fst →
      dictGet (routeLoop dfs m regs ex).1 k = dictGet m k := by
  induction dfs with
  | nil => intro m regs ex _; rfl
  | cons d rest ih =>
    intro m regs ex hk
    cases d with
    | plain nm =>
      simp only [capableEntries] at hk
      simpa [routeLoop] using ih m (regs ++ [nm]) ex hk
    | withQueryBuilder nm te eid =>
      simp only [capableEntries, List.map_cons, List.mem_cons] at hk
      push_neg at hk
      have h1 : dictGet (routeLoop rest (dictInsert m nm te) regs (some eid)).1 k =
          dictGet (dictInsert m nm te) k := ih _ _ _ hk.2
      have h2 : dictGet (dictInsert m nm te) k = dictGet m k :=
        dictGet_dictInsert_ne m nm te k (fun hh => hk.1 hh.symm)
      simp only [routeLoop]
      rw [h1, h2]

/-- `execute_sql_query` on a non-empty source list, expressed through the
loop accumulators. -/
theorem execute_sql_query_ne_nil
    (rewrite : String → List (String × String) → String)
    (dfs : List DFSource) (query : String) (hne : dfs ≠ []) :
    execute_sql_query rewrite dfs query =
      match (routeLoop dfs [] [] none).2.2 with
      | none => Except.ok (SQLDispatch.embedded (rewrite query (buildMapping dfs))
          (routeLoop dfs [] [] none).2.1)
      | some eid => Except.ok (SQLDispatch.forwarded eid
          (rewrite query (buildMapping dfs))) := by
  cases dfs with
  | nil => exact absurd rfl hne
  | cons d rest => rfl

/-- Witness for C8: `queries` given, `codes` absent, a `docs` list supplied
and a vector store configured — the call fails with the mismatch error and
writes nothing. -/
theorem c8_witness :
    (train true (some ["q1"]) none (some ["d1"])).1 = [] ∧
    (∃ e, (train true (some ["q1"]) none (some ["d1"])).2 = Except.error e) ∧
    ((true : Bool) = true → (train true (some ["q1"]) none (some ["d1"])).2 =
      Except.error (PyErr.valueError
        "If either queries or codes are provided, both must be provided.")) :=
  c8_train_mismatch_no_write true (some ["q1"]) none (some ["d1"]) (by decide)

/-! ## Claim C5 -/

/-- C5: for a non-empty source collection the router's dispatch is exhaustive
and exclusive: when no source is query-capable the rewritten query (rewritten
against the then-empty table mapping) is answered by the embedded engine over
all registered in-memory tables; when a query-capable source exists the full
rewritten query is forwarded to the designated capable source's executor and
the embedded engine is bypassed (`forwarded`, not `embedded`). -/
theorem c5_router_dispatch_exhaustive_exclusive
    (rewrite : String → List (String × String) → String)
    (dfs : List DFSource) (query : String) (hne : dfs ≠ []) :
    ((∀ df ∈ dfs, isCapable df = false) →
      execute_sql_query rewrite dfs query =
        Except.ok (SQLDispatch.embedded (rewrite query []) (dfs.map sourceName))) ∧
    ((∃ df ∈ dfs, isCapable df = true) →
      ∃ n te eid, DFSource.withQueryBuilder n te eid ∈ dfs ∧
        execute_sql_query rewrite dfs query =
          Except.ok (SQLDispatch.forwarded eid (rewrite query (buildMapping dfs)))) := by
  constructor
  · intro hall
    have hloop := routeLoop_no_capable dfs hall [] [] none
    rw [execute_sql_query_ne_nil rewrite dfs query hne]
    rw [show buildMapping dfs = (routeLoop dfs [] [] none).1 from rfl, hloop]
    simp
  · intro hcap
    rcases routeLoop_exec_some dfs hcap [] [] none with ⟨n, te, eid, hmem, hex⟩
    refine ⟨n, te, eid, hmem, ?_⟩
    rw [execute_sql_query_ne_nil rewrite dfs query hne, hex]

/-- Witness for C5: two plain sources, no query-capable source — the query
is answered by the embedded engine over both registered tables. -/
theorem c5_witness :
    execute_sql_query rwId [DFSource.plain "a", DFSource.plain "b"] "Q" =
      Except.ok (SQLDispatch.embedded (rwId "Q" []) ["a", "b"]) := by
  have h := (c5_router_dispatch_exhaustive_exclusive rwId
    [DFSource.plain "a", DFSource.plain "b"] "Q" (by simp)).1 (by decide)
  simpa using h

/-! ## Claim C10 -/

/-- C10: when several sources are query-capable, the designated executor is
the LAST query-capable source in registration order (later capable sources
overwrite earlier ones), and the table expression of every query-capable
source is entered into the table mapping used for rewriting: any capable
source whose name does not recur among later capable sources keeps its own
expression in the final mapping. -/
theorem c10_last_capable_source_is_executor
    (rewrite : String → List (String × String) → String) (query : String)
    (dfs pre post : List DFSource) (n te : String) (eid : Nat)
    (hsplit : dfs = pre ++ DFSource.withQueryBuilder n te eid :: post)
    (hpost : ∀ df ∈ post, isCapable df = false) :
    execute_sql_query rewrite dfs query =
      Except.ok (SQLDispatch.forwarded eid (rewrite query (buildMapping dfs))) ∧
    ∀ pre2 post2 (n2 te2 : String) (eid2 : Nat),
      dfs = pre2 ++ DFSource.withQueryBuilder n2 te2 eid2 :: post2 →
      n2 ∉ (capableEntries post2).map Prod.fst →
      dictGet (buildMapping dfs) n2 = some te2 := by
  constructor
  · have hne : dfs ≠ [] := by
      rw [hsplit]
      simp
    have hex : (routeLoop dfs [] [] none).2.2 = some eid := by
      rw [hsplit, routeLoop_append]
      have h1 : routeLoop (DFSource.withQueryBuilder n te eid :: post)
          (routeLoop pre [] [] none).1 (routeLoop pre [] [] none).2.1
          (routeLoop pre [] [] none).2.2 =
        routeLoop post (dictInsert (routeLoop pre [] [] none).1 n te)
          (routeLoop pre [] [] none).2.1 (some eid) := rfl
      rw [h1, routeLoop_no_capable post hpost]
    rw [execute_sql_query_ne_nil rewrite dfs query hne, hex]
  · intro pre2 post2 n2 te2 eid2 hsplit2 hnotin
    have hmap : dictGet (buildMapping dfs) n2 = some te2 := by
      rw [show buildMapping dfs = (routeLoop dfs [] [] none).1 from rfl]
      rw [hsplit2, routeLoop_append]
      have h1 : routeLoop (DFSource.withQueryBuilder n2 te2 eid2 :: post2)
          (routeLoop pre2 [] [] none).1 (routeLoop pre2 [] [] none).2.1
          (routeLoop pre2 [] [] none).2.2 =
        routeLoop post2 (dictInsert (routeLoop pre2 [] [] none).1 n2 te2)
          (routeLoop pre2 [] [] none).2.1 (some eid2) := rfl
      rw [h1, routeLoop_dictGet_of_notin post2 n2 _ _ _ hnotin,
        dictGet_dictInsert_self]
    exact hmap

/-- Witness for C10: among two query-capable sources the later one (executor
id 9) is the designated executor, while the earlier one's table expression
is still present in the mapping. -/
theorem c10_witness :
    execute_sql_query rwId dfsC10 "Q" =
      Except.ok (SQLDispatch.forwarded 9 (rwId "Q" (buildMapping dfsC10))) ∧
    dictGet (buildMapping dfsC10) "b" = some "eb" := by
  have h := c10_last_capable_source_is_executor rwId "Q" dfsC10
    [DFSource.plain "a", DFSource.withQueryBuilder "b" "eb" 7] []
    "c" "ec" 9 rfl (by intro df hdf; cases hdf)
  refine ⟨h.1, ?_⟩
  exact h.2 [DFSource.plain "a"] [DFSource.withQueryBuilder "c" "ec" 9]
    "b" "eb" 7 rfl (by decide)

/-! ## Claim C9 -/

theorem stages_append (a b : List StreamResponse) :
    stages (a ++ b) = stages a ++ stages b := by
  simp [stages]

theorem regenAdj_append (xs ys : List Stage) :
    ∀ p, regenAdj p (xs ++ ys) = (regenAdj p xs && regenAdj (lastD p xs) ys) := by
  induction xs with
  | nil => intro p; simp [regenAdj, lastD]
  | cons s rest ih =>
    intro p
    simp [regenAdj, lastD, ih (some s), Bool.and_assoc]

/-- The recovery generator's events satisfy the adjacency invariant under any
preceding stage: they start with an execution-failed event, and a
regeneration event only ever follows it. -/
theorem regenAdj_regenerate (o : Oracle) (st : AgentState) (code : Option String)
    (error : PyErr) (p : Option Stage) :
    regenAdj p (stages (regenerate_code_after_error o st code error).1) = true := by
  rcases regenerate_events_shape o st code error with hs | ⟨c, hs⟩ <;>
    rw [hs] <;> simp [stages, regenAdj]

theorem regenAdj_genRetryLoop (o : Oracle) :
    ∀ (r : Nat) (e : PyErr) (st : AgentState) (p : Option Stage),
      regenAdj p (stages (genRetryLoop o e st r).1) = true := by
  intro r
  induction r with
  | zero => intro e st p; simp [genRetryLoop, stages, regenAdj]
  | succ n ih =>
    intro e st p
    unfold genRetryLoop
    rcases h : regenerate_code_after_error o st st.lastCodeGenerated e with ⟨evs, st', r'⟩
    have hevs : ∀ q, regenAdj q (stages evs) = true := by
      intro q
      have hq := regenAdj_regenerate o st st.lastCodeGenerated e q
      rw [h] at hq
      exact hq
    cases r' with
    | ok u => cases u; simpa using hevs p
    | error e2 =>
      cases n with
      | zero => simpa using hevs p
      | succ m =>
        simp only
        rw [stages_append, regenAdj_append, hevs p,
          ih e2 st' (lastD p (stages evs))]
        rfl

theorem regenAdj_execRetryLoop (o : Oracle) :
    ∀ (r : Nat) (st : AgentState) (p : Option Stage),
      regenAdj p (stages (execRetryLoop o st r).1) = true := by
  intro r
  induction r with
  | zero => intro st p; simp [execRetryLoop, stages, regenAdj]
  | succ n ih =>
    intro st p
    unfold execRetryLoop
    rcases h : execute_code o st st.lastCodeCleaned with ⟨st', r'⟩
    cases r' with
    | ok result => simp [stages, regenAdj]
    | error e =>
      cases n with
      | zero => simp [stages, regenAdj]
      | succ m =>
        rcases h2 : regenerate_code_after_error o st' st'.lastCodeCleaned e
          with ⟨evs, st'', r''⟩
        have hevs : ∀ q, regenAdj q (stages evs) = true := by
          intro q
          have hq := regenAdj_regenerate o st' st'.lastCodeCleaned e q
          rw [h2] at hq
          exact hq
        cases r'' with
        | ok u =>
          cases u
          simp only [h2]
          rw [stages_append, regenAdj_append, hevs p,
            ih st'' (lastD p (stages evs))]
          rfl
        | error e2 =>
          simp only [h2]
          exact hevs p

theorem regenAdj_generate_code_with_retries
    (maxRetries : Nat) (o : Oracle) (st : AgentState) (p : Option Stage) :
    regenAdj p (stages (generate_code_with_retries maxRetries o st).1) = true := by
  unfold generate_code_with_retries
  rcases h : generate_code o st with ⟨st', r⟩
  cases r with
  | ok c => simp [stages, regenAdj]
  | error e => exact regenAdj_genRetryLoop o (maxRetries + 1) e st' p

theorem regenAdj_runPhases (maxRetries : Nat) (o : Oracle) (st : AgentState)
    (p : Option Stage) :
    regenAdj p (stages (runPhases maxRetries o st).1) = true := by
  unfold runPhases
  rcases h : generate_code_with_retries maxRetries o st with ⟨evs, st', r⟩
  have hevs : ∀ q, regenAdj q (stages evs) = true := by
    intro q
    have hq := regenAdj_generate_code_with_retries maxRetries o st q
    rw [h] at hq
    exact hq
  cases r with
  | error e => simpa using hevs p
  | ok u =>
    cases u
    simp only
    rw [stages_append, regenAdj_append, hevs p]
    rw [show execute_with_retries maxRetries o st' =
      execRetryLoop o st' (maxRetries + 1) from rfl]
    rw [regenAdj_execRetryLoop o (maxRetries + 1) st' (lastD p (stages evs))]
    rfl

/-- C9: in every event stream produced for a query, each code-regenerated
event is immediately preceded by an execution-failed event (the `regenAdj`
scan); and a failed initial generation is reported through the same
execution-failed / code-regenerated event pair — concretely, when the first
generation fails and its corrective regeneration succeeds, the stream is
`[execution-failed, code-regenerated, final-result]`: it begins with an
execution-failed event and contains no code-generated event for the failed
generation attempt. -/
theorem c9_regeneration_immediately_preceded_by_failure :
    (∀ (maxRetries : Nat) (o : Oracle) (st : AgentState) (q : String)
      (ot : Option String),
      regenAdj none (stages (process_query maxRetries o st q ot).1) = true) ∧
    stages (process_query 1 oracleInitialGenFails {} "q" none).1 =
      [Stage.codeExecutionFailure, Stage.codeRegeneration, Stage.finalResult] := by
  constructor
  · intro maxRetries o st q ot
    unfold process_query
    rcases h : runPhases maxRetries o (recordQuery st q ot) with ⟨evs, st', r⟩
    have hevs : ∀ p, regenAdj p (stages evs) = true := by
      intro p
      have hp := regenAdj_runPhases maxRetries o (recordQuery st q ot) p
      rw [h] at hp
      exact hp
    cases r with
    | ok u =>
      cases u
      simp only [h]
      exact hevs none
    | error e =>
      simp only [h]
      rw [stages_append, regenAdj_append, hevs none]
      simp [stages, regenAdj]
  · rfl

end FluentDb
